import Mathlib

/-!
Shallow embedding of the matchmaking backend (`main.py`).

The document store is modelled as four lists kept in insertion order:
`insert_one` appends a record at the end, `find_one` is `List.find?`
(first match in store order), and `find` with `limit(50)` is `List.take 50`.
Strings are Lean `String`s; timestamps are `Nat`.
-/

deriving instance DecidableEq for Except

namespace Matrimonial

/-- A document in the `user` collection.  Optional profile fields that no
endpoint modelled here reads (gender, bio, …) are initialised to their
signup defaults. -/
structure UserRec where
  id : String
  name : String
  email : String
  passwordHash : String
  isActive : Bool := true
  gender : Option String := none
  dateOfBirth : Option String := none
  location : Option String := none
  bio : Option String := none
  interests : List String := []
  photos : List String := []
  createdAt : Nat := 0
  updatedAt : Nat := 0
deriving DecidableEq

/-- A document in the `session` collection. -/
structure SessionRec where
  userId : String
  token : String
  expiresAt : Nat
deriving DecidableEq

/-- A document in the `swipe` collection. -/
structure SwipeRec where
  userId : String
  targetId : String
  action : String
  createdAt : Nat
deriving DecidableEq

/-- A document in the `match` collection. -/
structure MatchRec where
  userA : String
  userB : String
  createdAt : Nat
deriving DecidableEq

/-- The whole backing store. -/
structure DB where
  users : List UserRec := []
  sessions : List SessionRec := []
  swipes : List SwipeRec := []
  matchSet : List MatchRec := []
deriving DecidableEq

/-- Opaque stand-in for `hashlib.sha256(password).hexdigest()`: the claims
depend only on it being a deterministic function of the password, never on
the digest value itself. -/
def hashPassword (password : String) : String := password

/-- Python's per-character `str.lower()` (`payload.email.lower()`). -/
def lowerStr (s : String) : String := String.mk (s.data.map Char.toLower)

/-- `signup` (`POST /auth/signup`).  Lower-cases the email, rejects with 400
when a user with that email already exists, otherwise inserts the new user
document.  `newId` stands for the ObjectId the store generates, `t` for
`now_utc()`.  Returns `(id, email, name)` on success and leaves the store
unchanged on error. -/
def signup (newId name email password : String) (t : Nat) (st : DB) :
    Except Nat (String × String × String) × DB :=
  match st.users.find? (fun u => u.email == lowerStr email) with
  | some _ => (Except.error 400, st)
  | none =>
      (Except.ok (newId, lowerStr email, name),
        { st with users := st.users ++
            [{ id := newId, name := name, email := lowerStr email,
               passwordHash := hashPassword password,
               createdAt := t, updatedAt := t }] })

/-- `authorization.replace("Bearer ", "")` on the character list: Python's
`str.replace` deletes every non-overlapping occurrence, scanning left to
right. -/
def stripBearerL : List Char → List Char
  | [] => []
  | 'B' :: 'e' :: 'a' :: 'r' :: 'e' :: 'r' :: ' ' :: rest => stripBearerL rest
  | c :: cs => c :: stripBearerL cs

/-- `authorization.replace("Bearer ", "")` on strings. -/
def stripBearer (s : String) : String := String.mk (stripBearerL s.data)

/-- `get_current_user`: fails 401 on a missing or empty header, strips every
`"Bearer "` occurrence, looks up the first unexpired session with that token,
then the session's user. -/
def getCurrentUser (authorization : Option String) (st : DB) (now : Nat) :
    Except Nat UserRec :=
  match authorization with
  | none => Except.error 401
  | some h =>
      if h = "" then Except.error 401
      else
        let token := stripBearer h
        match st.sessions.find?
            (fun s => s.token == token && decide (now < s.expiresAt)) with
        | none => Except.error 401
        | some session =>
            match st.users.find? (fun u => u.id == session.userId) with
            | none => Except.error 401
            | some u => Except.ok u

/-- The candidate shape `discover` returns: the user document with
`password_hash` projected away and `id` materialised. -/
structure Profile where
  id : String
  name : String
  email : String
  isActive : Bool
  gender : Option String
  dateOfBirth : Option String
  location : Option String
  bio : Option String
  interests : List String
  photos : List String
  createdAt : Nat
  updatedAt : Nat
deriving DecidableEq

/-- Projection `{"password_hash": 0}` plus `u["id"] = str(u["_id"])`. -/
def stripHash (u : UserRec) : Profile :=
  { id := u.id, name := u.name, email := u.email, isActive := u.isActive,
    gender := u.gender, dateOfBirth := u.dateOfBirth, location := u.location,
    bio := u.bio, interests := u.interests, photos := u.photos,
    createdAt := u.createdAt, updatedAt := u.updatedAt }

/-- Membership test against the requester's exclusion set
(`swiped_ids` plus the requester's own id). -/
def excluded (requesterId : String) (st : DB) (uid : String) : Bool :=
  uid == requesterId ||
    st.swipes.any (fun s => s.userId == requesterId && s.targetId == uid)

/-- `discover` (`GET /discover`): scans the first 50 user documents in store
order and keeps those whose id is not in the exclusion set. -/
def discover (requesterId : String) (st : DB) : List Profile :=
  ((st.users.take 50).filter (fun u => !excluded requesterId st u.id)).map
    stripHash

/-- Predicate of the reciprocal-like query
`{"user_id": target, "target_id": actor, "action": "like"}`. -/
def reciprocalPred (actorId targetId : String) (s : SwipeRec) : Bool :=
  s.userId == targetId && s.targetId == actorId && s.action == "like"

/-- Predicate of the match-existence query: both orderings of the pair. -/
def pairPred (a b : String) (m : MatchRec) : Bool :=
  (m.userA == a && m.userB == b) || (m.userA == b && m.userB == a)

/-- Number of `match` documents for the unordered pair `{a, b}`. -/
def countPair (a b : String) (ms : List MatchRec) : Nat :=
  ms.countP (fun m => pairPred a b m)

/-- `swipe` (`POST /swipe`) for an authenticated actor: validates the action,
appends the swipe record, and on a `"like"` queries for a reciprocal like in
the post-insert ledger; on a mutual like it inserts a match unless one
already exists in either orientation.  Returns the `match` flag of
`{"ok": true, "match": is_match}`, or 400 with the store unchanged. -/
def swipe (actorId targetId action : String) (t : Nat) (st : DB) :
    Except Nat Bool × DB :=
  if action ≠ "like" ∧ action ≠ "pass" then (Except.error 400, st)
  else
    let st1 : DB :=
      { st with swipes := st.swipes ++ [⟨actorId, targetId, action, t⟩] }
    if action = "like" then
      match st1.swipes.find? (reciprocalPred actorId targetId) with
      | none => (Except.ok false, st1)
      | some _ =>
          match st1.matchSet.find? (pairPred actorId targetId) with
          | none =>
              (Except.ok true,
                { st1 with matchSet := st1.matchSet ++ [⟨actorId, targetId, t⟩] })
          | some _ => (Except.ok true, st1)
    else (Except.ok false, st1)

/-- Sequential re-invocation of `swipe (actor, target, "like")`: the list of
per-call results together with the final store. -/
def swipeIter (a b : String) (t : Nat) : Nat → DB → List (Except Nat Bool) × DB
  | 0, st => ([], st)
  | n + 1, st =>
      let r := swipe a b "like" t st
      let rest := swipeIter a b t n r.2
      (r.1 :: rest.1, rest.2)

/-- A store with 51 users `u0 … u50` and no swipes: one more user than the
fixed scan cap of `discover`. -/
def gapDB : DB :=
  { users := (List.range 51).map (fun i =>
      { id := "u" ++ toString i, name := "n", email := "e",
        passwordHash := "p" }) }

/-- The 51st stored user of `gapDB`, beyond the scan cap. -/
def gapUser : UserRec :=
  { id := "u50", name := "n", email := "e", passwordHash := "p" }

/-- A one-user store used to instantiate the discovery theorems. -/
def oneUserDB : DB := { users := [gapUser] }

/-- A store in which B already likes A and the pair is already matched. -/
def relikeDB : DB :=
  { swipes := [SwipeRec.mk "B" "A" "like" 0],
    matchSet := [MatchRec.mk "A" "B" 0] }

/-- A store holding one valid (unexpired) session whose user document is
missing. -/
def orphanSessionDB : DB := { sessions := [SessionRec.mk "u1" "tok" 5] }

/-- A store with one valid session together with its user document. -/
def authDB : DB :=
  { users := [{ id := "u1", name := "n", email := "e", passwordHash := "p" }],
    sessions := [SessionRec.mk "u1" "tok" 5] }

/-! ### Supporting lemmas -/

/-- Propositional reading of `reciprocalPred`. -/
lemma reciprocalPred_iff (a b : String) (s : SwipeRec) :
    reciprocalPred a b s = true ↔
      s.userId = b ∧ s.targetId = a ∧ s.action = "like" := by
  simp [reciprocalPred, Bool.and_eq_true, and_assoc]

/-- Propositional reading of `pairPred`. -/
lemma pairPred_iff (a b : String) (m : MatchRec) :
    pairPred a b m = true ↔
      (m.userA = a ∧ m.userB = b) ∨ (m.userA = b ∧ m.userB = a) := by
  simp [pairPred]

/-- Unfolding of `swipe` at action `"like"`. -/
lemma swipe_like_def (a b : String) (t : Nat) (st : DB) :
    swipe a b "like" t st =
      match (st.swipes ++ [(SwipeRec.mk a b "like" t)]).find? (reciprocalPred a b) with
      | none =>
          (Except.ok false, { st with swipes := st.swipes ++ [(SwipeRec.mk a b "like" t)] })
      | some _ =>
          match st.matchSet.find? (pairPred a b) with
          | none =>
              (Except.ok true,
                { st with swipes := st.swipes ++ [(SwipeRec.mk a b "like" t)],
                          matchSet := st.matchSet ++ [(MatchRec.mk a b t)] })
          | some _ =>
              (Except.ok true,
                { st with swipes := st.swipes ++ [(SwipeRec.mk a b "like" t)] }) := by
  rfl

/-- A like with a reciprocal in the ledger and no recorded match for the pair:
returns `matched = true` and inserts the match. -/
lemma swipe_like_new (a b : String) (t : Nat) (st : DB)
    (hrecip : ∃ s ∈ st.swipes, reciprocalPred a b s = true)
    (hnone : st.matchSet.find? (pairPred a b) = none) :
    swipe a b "like" t st =
      (Except.ok true,
        { st with swipes := st.swipes ++ [(SwipeRec.mk a b "like" t)],
                  matchSet := st.matchSet ++ [(MatchRec.mk a b t)] }) := by
  obtain ⟨s, hs, hps⟩ := hrecip
  have hsome : ((st.swipes ++ [(SwipeRec.mk a b "like" t)]).find?
      (reciprocalPred a b)).isSome := by
    rw [List.find?_isSome]
    exact ⟨s, List.mem_append_left _ hs, hps⟩
  rw [swipe_like_def]
  cases hfind : (st.swipes ++ [(SwipeRec.mk a b "like" t)]).find? (reciprocalPred a b) with
  | none => rw [hfind] at hsome; simp at hsome
  | some s' => rw [hnone]

/-- A like with a reciprocal in the ledger and an already-recorded match:
returns `matched = true` and inserts nothing into the match set. -/
lemma swipe_like_existing (a b : String) (t : Nat) (st : DB)
    (hrecip : ∃ s ∈ st.swipes, reciprocalPred a b s = true)
    (hsome : (st.matchSet.find? (pairPred a b)).isSome) :
    swipe a b "like" t st =
      (Except.ok true,
        { st with swipes := st.swipes ++ [(SwipeRec.mk a b "like" t)] }) := by
  obtain ⟨s, hs, hps⟩ := hrecip
  have hrs : ((st.swipes ++ [(SwipeRec.mk a b "like" t)]).find?
      (reciprocalPred a b)).isSome := by
    rw [List.find?_isSome]
    exact ⟨s, List.mem_append_left _ hs, hps⟩
  rw [swipe_like_def]
  cases hfind : (st.swipes ++ [(SwipeRec.mk a b "like" t)]).find? (reciprocalPred a b) with
  | none => rw [hfind] at hrs; simp at hrs
  | some s' =>
      cases hm : st.matchSet.find? (pairPred a b) with
      | none => rw [hm] at hsome; simp at hsome
      | some m => rfl

/-- `find? = none` for the pair query says the pair count is zero. -/
lemma countPair_eq_zero_of_find?_none (a b : String) (ms : List MatchRec)
    (h : ms.find? (pairPred a b) = none) : countPair a b ms = 0 := by
  rw [List.find?_eq_none] at h
  simpa [countPair, List.countP_eq_zero] using h

/-- `find?` succeeding for the pair query says the pair count is positive. -/
lemma countPair_pos_of_find?_some (a b : String) (ms : List MatchRec)
    (h : (ms.find? (pairPred a b)).isSome) : 0 < countPair a b ms := by
  rw [List.find?_isSome] at h
  simpa [countPair, List.countP_pos_iff] using h

/-- Membership in `discover`: exactly the first-50 users outside the
exclusion set, with the hash stripped. -/
lemma mem_discover_iff (r : String) (st : DB) (p : Profile) :
    p ∈ discover r st ↔
      ∃ u, u ∈ st.users.take 50 ∧ u.id ≠ r ∧
        (∀ s ∈ st.swipes, ¬(s.userId = r ∧ s.targetId = u.id)) ∧
        stripHash u = p := by
  simp [discover, excluded, List.mem_filter, List.any_eq_true, not_or,
    and_assoc, and_comm, and_left_comm]

/-- A signup whose lower-cased email is already stored fails with 400 and
changes nothing. -/
lemma signup_taken (i nm e pw : String) (t : Nat) (st : DB)
    (h : ∃ u ∈ st.users, u.email = lowerStr e) :
    signup i nm e pw t st = (Except.error 400, st) := by
  have hs : (st.users.find? (fun u => u.email == lowerStr e)).isSome := by
    rw [List.find?_isSome]
    obtain ⟨u, hu, he⟩ := h
    exact ⟨u, hu, by simp [he]⟩
  unfold signup
  cases hf : st.users.find? (fun u => u.email == lowerStr e) with
  | none => rw [hf] at hs; simp at hs
  | some u => rfl

/-- One unfolding step of `swipeIter`. -/
lemma swipeIter_succ (a b : String) (t n : Nat) (st : DB) :
    swipeIter a b t (n + 1) st =
      ((swipe a b "like" t st).1 ::
          (swipeIter a b t n (swipe a b "like" t st).2).1,
        (swipeIter a b t n (swipe a b "like" t st).2).2) := rfl

/-- Deleting `"Bearer "` occurrences from a `"Bearer "`-prefixed list drops
the prefix and continues on the remainder. -/
lemma stripBearerL_bearer (l : List Char) :
    stripBearerL ('B' :: 'e' :: 'a' :: 'r' :: 'e' :: 'r' :: ' ' :: l) =
      stripBearerL l := rfl

/-- The prefixed header and the bare token strip to the same string. -/
lemma stripBearer_bearer_append (t : String) :
    stripBearer ("Bearer " ++ t) = stripBearer t := by
  unfold stripBearer
  rw [String.congr_append]
  rfl

/-- A `"Bearer "`-prefixed header is never the empty string. -/
lemma bearer_append_ne_empty (t : String) : "Bearer " ++ t ≠ "" := by
  intro h
  have h2 : String.mk ("Bearer ".data ++ t.data) = "" := by
    rw [← String.congr_append]; exact h
  have h3 : "Bearer ".data ++ t.data = "".data := congrArg String.data h2
  have h4 : "Bearer ".data = [] := (List.append_eq_nil.mp h3).1
  exact absurd h4 (by decide)

/-! ### Claim theorems -/

/-- C1: if A likes B while the ledger already holds a like from B to A, then
after the swipe exactly one match document exists for the unordered pair
{A,B} (whether it was just created or already present, in either stored
orientation), and the call returns `matched = true`. -/
theorem mutual_like_exactly_one_match (a b : String) (t : Nat) (st : DB)
    (_hab : a ≠ b)
    (hrecip : ∃ s ∈ st.swipes, s.userId = b ∧ s.targetId = a ∧ s.action = "like")
    (hinv : countPair a b st.matchSet ≤ 1) :
    (swipe a b "like" t st).1 = Except.ok true ∧
    countPair a b (swipe a b "like" t st).2.matchSet = 1 := by
  have hrecip' : ∃ s ∈ st.swipes, reciprocalPred a b s = true := by
    obtain ⟨s, hs, h1, h2, h3⟩ := hrecip
    exact ⟨s, hs, (reciprocalPred_iff a b s).mpr ⟨h1, h2, h3⟩⟩
  cases hm : st.matchSet.find? (pairPred a b) with
  | none =>
      rw [swipe_like_new a b t st hrecip' hm]
      refine ⟨rfl, ?_⟩
      have h0 := countPair_eq_zero_of_find?_none a b st.matchSet hm
      unfold countPair at h0 ⊢
      rw [List.countP_append, h0]
      simp [List.countP_cons, pairPred]
  | some m =>
      have hms : (st.matchSet.find? (pairPred a b)).isSome := by
        rw [hm]; rfl
      rw [swipe_like_existing a b t st hrecip' hms]
      refine ⟨rfl, ?_⟩
      have hpos := countPair_pos_of_find?_some a b st.matchSet hms
      show countPair a b st.matchSet = 1
      omega

/-- C1 witness: B already likes A; A's like yields `matched = true` and a
single match document for the pair. -/
theorem mutual_like_exactly_one_match_witness :
    (swipe "A" "B" "like" 1
        { swipes := [SwipeRec.mk "B" "A" "like" 0] }).1 = Except.ok true ∧
    countPair "A" "B"
      (swipe "A" "B" "like" 1
        { swipes := [SwipeRec.mk "B" "A" "like" 0] }).2.matchSet = 1 :=
  mutual_like_exactly_one_match "A" "B" 1
    { swipes := [SwipeRec.mk "B" "A" "like" 0] }
    (by decide) (by decide) (by decide)

/-- C2: a `pass` swipe always returns `matched = false` and leaves the match
collection untouched, whatever swipes came before. -/
theorem pass_never_matches (a b : String) (t : Nat) (st : DB) :
    (swipe a b "pass" t st).1 = Except.ok false ∧
    (swipe a b "pass" t st).2.matchSet = st.matchSet :=
  ⟨rfl, rfl⟩

/-- C4: a swipe whose action is neither `"like"` nor `"pass"` fails with 400
and leaves the whole store unchanged. -/
theorem invalid_action_rejected (a b act : String) (t : Nat) (st : DB)
    (h1 : act ≠ "like") (h2 : act ≠ "pass") :
    swipe a b act t st = (Except.error 400, st) := by
  unfold swipe
  rw [if_pos ⟨h1, h2⟩]

/-- C4 witness: the action `"superlike"` is rejected on an empty store. -/
theorem invalid_action_rejected_witness :
    swipe "A" "B" "superlike" 0 ({} : DB) = (Except.error 400, ({} : DB)) :=
  invalid_action_rejected "A" "B" "superlike" 0 ({} : DB)
    (by decide) (by decide)

/-- C3 counterexample: with `A = B = "u"` and an empty ledger, a like with no
pre-existing reciprocal still reports `matched = true` and creates a match,
because the reciprocal query runs after the insert. -/
theorem like_without_reciprocal_cex :
    (∀ s ∈ ({} : DB).swipes,
        ¬(s.userId = "u" ∧ s.targetId = "u" ∧ s.action = "like")) ∧
    (swipe "u" "u" "like" 0 ({} : DB)).1 = Except.ok true ∧
    countPair "u" "u" (swipe "u" "u" "like" 0 ({} : DB)).2.matchSet = 1 := by
  decide

/-- C3 (amended): for `A ≠ B`, if the ledger holds no like from B to A, then
A's like on B returns `matched = false` and creates no match document. -/
theorem like_without_reciprocal_no_match (a b : String) (t : Nat) (st : DB)
    (hab : a ≠ b)
    (hno : ∀ s ∈ st.swipes, ¬(s.userId = b ∧ s.targetId = a ∧ s.action = "like")) :
    (swipe a b "like" t st).1 = Except.ok false ∧
    (swipe a b "like" t st).2.matchSet = st.matchSet := by
  have hfind : (st.swipes ++ [SwipeRec.mk a b "like" t]).find?
      (reciprocalPred a b) = none := by
    rw [List.find?_eq_none]
    intro x hx hpx
    rcases List.mem_append.mp hx with hx | hx
    · exact hno x hx ((reciprocalPred_iff a b x).mp hpx)
    · rw [List.mem_singleton] at hx
      subst hx
      rw [reciprocalPred_iff] at hpx
      exact hab hpx.1
  rw [swipe_like_def, hfind]
  exact ⟨rfl, rfl⟩

/-- C3 witness: on an empty store, A liking B yields no match. -/
theorem like_without_reciprocal_no_match_witness :
    (swipe "A" "B" "like" 0 ({} : DB)).1 = Except.ok false ∧
    (swipe "A" "B" "like" 0 ({} : DB)).2.matchSet = ({} : DB).matchSet :=
  like_without_reciprocal_no_match "A" "B" 0 ({} : DB) (by decide) (by decide)

/-- C9: a single self-like immediately matches: the reciprocal query runs on
the post-insert ledger and finds the record just written, so the call returns
`matched = true` and (absent a prior self-match) inserts a match document
with `user_a = user_b = A`. -/
theorem self_like_instant_match (a : String) (t : Nat) (st : DB)
    (h0 : countPair a a st.matchSet = 0) :
    (swipe a a "like" t st).1 = Except.ok true ∧
    (swipe a a "like" t st).2.matchSet = st.matchSet ++ [MatchRec.mk a a t] := by
  have hnone : st.matchSet.find? (pairPred a a) = none := by
    rw [List.find?_eq_none]
    intro m hm hpm
    unfold countPair at h0
    rw [List.countP_eq_zero] at h0
    exact h0 m hm hpm
  have hsome : ((st.swipes ++ [SwipeRec.mk a a "like" t]).find?
      (reciprocalPred a a)).isSome := by
    rw [List.find?_isSome]
    refine ⟨SwipeRec.mk a a "like" t,
      List.mem_append_right _ (List.mem_singleton.mpr rfl), ?_⟩
    simp [reciprocalPred]
  rw [swipe_like_def]
  cases hfind : (st.swipes ++ [SwipeRec.mk a a "like" t]).find?
      (reciprocalPred a a) with
  | none => rw [hfind] at hsome; simp at hsome
  | some s' => rw [hnone]; exact ⟨rfl, rfl⟩

/-- C9 witness: on an empty store, `swipe("u", "u", like)` matches at once and
records the degenerate match. -/
theorem self_like_instant_match_witness :
    (swipe "u" "u" "like" 0 ({} : DB)).1 = Except.ok true ∧
    (swipe "u" "u" "like" 0 ({} : DB)).2.matchSet =
      ({} : DB).matchSet ++ [MatchRec.mk "u" "u" 0] :=
  self_like_instant_match "u" 0 ({} : DB) (by decide)

/-- C5: `discover` never returns the requester or a previously swiped target:
every returned profile id differs from the requester id and from the target
id of every swipe (any action) the requester made. -/
theorem discover_excludes_self_and_swiped (r : String) (st : DB) (p : Profile)
    (hp : p ∈ discover r st) :
    p.id ≠ r ∧ ∀ s ∈ st.swipes, s.userId = r → s.targetId ≠ p.id := by
  obtain ⟨u, -, hne, hns, hstrip⟩ := (mem_discover_iff r st p).mp hp
  have hid : p.id = u.id := by rw [← hstrip]; rfl
  refine ⟨by rw [hid]; exact hne, ?_⟩
  intro s hs hur htg
  exact hns s hs ⟨hur, htg.trans hid⟩

/-- C5 witness: the one stored user is returned to a fresh requester and is
neither the requester nor previously swiped. -/
theorem discover_excludes_self_and_swiped_witness :
    (stripHash gapUser).id ≠ "x" ∧
    ∀ s ∈ oneUserDB.swipes, s.userId = "x" → s.targetId ≠ (stripHash gapUser).id :=
  discover_excludes_self_and_swiped "x" oneUserDB (stripHash gapUser) (by decide)

/-- C6: the scan cap precedes the filtering: at most 50 profiles come back,
the result is exactly the first 50 stored users minus the exclusion set, and
in a 51-user store the eligible 51st user is silently dropped. -/
theorem discover_scan_cap :
    (∀ r st, (discover r st).length ≤ 50) ∧
    (∀ r st p, p ∈ discover r st ↔
        ∃ u, u ∈ st.users.take 50 ∧ u.id ≠ r ∧
          (∀ s ∈ st.swipes, ¬(s.userId = r ∧ s.targetId = u.id)) ∧
          stripHash u = p) ∧
    (gapUser ∈ gapDB.users ∧ gapUser.id ≠ "u0" ∧ gapDB.swipes = [] ∧
      ∀ p ∈ discover "u0" gapDB, p.id ≠ gapUser.id) := by
  refine ⟨?_, fun r st p => mem_discover_iff r st p, ?_⟩
  · intro r st
    simp only [discover, List.length_map]
    exact le_trans (List.length_filter_le _ _)
      (by rw [List.length_take]; exact min_le_left _ _)
  · decide

/-- C6 witness: instantiating the membership characterisation on the one-user
store puts its single user in the result. -/
theorem discover_scan_cap_witness :
    stripHash gapUser ∈ discover "x" oneUserDB :=
  (discover_scan_cap.2.1 "x" oneUserDB (stripHash gapUser)).mpr
    ⟨gapUser, by decide, by decide, by decide, rfl⟩

/-- C7: after a signup stored the lower-cased email, a second signup whose
email differs only in letter case fails with 400 and inserts no user. -/
theorem signup_email_case_insensitive (id1 n1 e1 p1 id2 n2 e2 p2 : String)
    (t1 t2 : Nat) (st : DB)
    (hfree : ∀ u ∈ st.users, u.email ≠ lowerStr e1)
    (hcase : lowerStr e1 = lowerStr e2) :
    (signup id1 n1 e1 p1 t1 st).1 = Except.ok (id1, lowerStr e1, n1) ∧
    (signup id1 n1 e1 p1 t1 st).2.users =
      st.users ++ [{ id := id1, name := n1, email := lowerStr e1,
                     passwordHash := hashPassword p1,
                     createdAt := t1, updatedAt := t1 }] ∧
    signup id2 n2 e2 p2 t2 (signup id1 n1 e1 p1 t1 st).2 =
      (Except.error 400, (signup id1 n1 e1 p1 t1 st).2) := by
  have hnone : st.users.find? (fun u => u.email == lowerStr e1) = none := by
    rw [List.find?_eq_none]
    intro u hu
    simpa using hfree u hu
  have h1 : signup id1 n1 e1 p1 t1 st =
      (Except.ok (id1, lowerStr e1, n1),
        { st with users := st.users ++
            [{ id := id1, name := n1, email := lowerStr e1,
               passwordHash := hashPassword p1,
               createdAt := t1, updatedAt := t1 }] }) := by
    unfold signup
    rw [hnone]
  rw [h1]
  refine ⟨rfl, rfl, ?_⟩
  apply signup_taken
  refine ⟨{ id := id1, name := n1, email := lowerStr e1,
            passwordHash := hashPassword p1,
            createdAt := t1, updatedAt := t1 }, ?_, ?_⟩
  · exact List.mem_append_right _ (List.mem_singleton.mpr rfl)
  · exact hcase

/-- C7 witness: `a@x.com` then `A@X.com` on an empty store. -/
theorem signup_email_case_insensitive_witness :
    (signup "id1" "n1" "a@x.com" "pw" 0 ({} : DB)).1 =
      Except.ok ("id1", lowerStr "a@x.com", "n1") ∧
    (signup "id1" "n1" "a@x.com" "pw" 0 ({} : DB)).2.users =
      ({} : DB).users ++
        [{ id := "id1", name := "n1", email := lowerStr "a@x.com",
           passwordHash := hashPassword "pw", createdAt := 0,
           updatedAt := 0 }] ∧
    signup "id2" "n2" "A@X.com" "pw2" 1
        (signup "id1" "n1" "a@x.com" "pw" 0 ({} : DB)).2 =
      (Except.error 400, (signup "id1" "n1" "a@x.com" "pw" 0 ({} : DB)).2) :=
  signup_email_case_insensitive "id1" "n1" "a@x.com" "pw" "id2" "n2" "A@X.com"
    "pw2" 0 1 ({} : DB) (by decide) (by decide)

/-- C8: with a reciprocal like in the ledger and the pair already matched,
each further `like` from A to B returns `matched = true` and appends one more
swipe record, while the match count for the pair stays exactly one. -/
theorem relike_appends_but_single_match (a b : String) (t : Nat) (st : DB)
    (n : Nat)
    (hrecip : ∃ s ∈ st.swipes, s.userId = b ∧ s.targetId = a ∧ s.action = "like")
    (hone : countPair a b st.matchSet = 1) :
    ((swipeIter a b t n st).1.length = n ∧
      ∀ r ∈ (swipeIter a b t n st).1, r = Except.ok true) ∧
    (swipeIter a b t n st).2.swipes.length = st.swipes.length + n ∧
    countPair a b (swipeIter a b t n st).2.matchSet = 1 := by
  induction n generalizing st with
  | zero => exact ⟨⟨rfl, by simp [swipeIter]⟩, rfl, hone⟩
  | succ n ih =>
      have hrecip' : ∃ s ∈ st.swipes, reciprocalPred a b s = true := by
        obtain ⟨s, hs, h1, h2, h3⟩ := hrecip
        exact ⟨s, hs, (reciprocalPred_iff a b s).mpr ⟨h1, h2, h3⟩⟩
      have hsome : (st.matchSet.find? (pairPred a b)).isSome := by
        rw [List.find?_isSome]
        have hpos : 0 < countPair a b st.matchSet := by omega
        unfold countPair at hpos
        rw [List.countP_pos_iff] at hpos
        exact hpos
      have hstep := swipe_like_existing a b t st hrecip' hsome
      have hr' : ∃ s ∈ (st.swipes ++ [SwipeRec.mk a b "like" t]),
          s.userId = b ∧ s.targetId = a ∧ s.action = "like" := by
        obtain ⟨s, hs, hp⟩ := hrecip
        exact ⟨s, List.mem_append_left _ hs, hp⟩
      obtain ⟨⟨ihlen, ihall⟩, ihswlen, ihcount⟩ :=
        ih { st with swipes := st.swipes ++ [SwipeRec.mk a b "like" t] } hr' hone
      rw [swipeIter_succ, hstep]
      dsimp only
      refine ⟨⟨?_, ?_⟩, ?_, ?_⟩
      · rw [List.length_cons, ihlen]
      · intro r hr
        rcases List.mem_cons.mp hr with h | h
        · exact h
        · exact ihall r h
      · rw [ihswlen]
        dsimp only
        simp only [List.length_append, List.length_singleton]
        omega
      · exact ihcount

/-- C8 witness: two re-likes on an already-matched pair both report
`matched = true`, add two swipe records, and keep a single match. -/
theorem relike_appends_but_single_match_witness :
    ((swipeIter "A" "B" 1 2 relikeDB).1.length = 2 ∧
      ∀ r ∈ (swipeIter "A" "B" 1 2 relikeDB).1, r = Except.ok true) ∧
    (swipeIter "A" "B" 1 2 relikeDB).2.swipes.length =
      relikeDB.swipes.length + 2 ∧
    countPair "A" "B" (swipeIter "A" "B" 1 2 relikeDB).2.matchSet = 1 :=
  relike_appends_but_single_match "A" "B" 1 relikeDB 2 (by decide) (by decide)

/-- C10 counterexample: a header whose stripped form equals a stored,
unexpired session token, yet authentication fails, because the session's
`user_id` has no user document — so success is not equivalent to the
stripped header matching an unexpired stored token. -/
theorem auth_header_iff_cex :
    stripBearer "Bearer tok" = "tok" ∧
    (∃ s ∈ orphanSessionDB.sessions,
        s.token = stripBearer "Bearer tok" ∧ 0 < s.expiresAt) ∧
    (getCurrentUser (some "Bearer tok") orphanSessionDB 0).isOk = false := by
  decide

/-- C10 (amended): token extraction deletes every `"Bearer "` occurrence, so
a nonempty bare-token header authenticates exactly like the prefixed one;
and authentication succeeds iff the header is nonempty, the first stored
session whose token equals the stripped header is unexpired, and that
session's `user_id` refers to an existing user. -/
theorem auth_token_extraction (st : DB) (now : Nat) :
    (∀ tk : String, tk ≠ "" →
        getCurrentUser (some ("Bearer " ++ tk)) st now =
          getCurrentUser (some tk) st now) ∧
    (∀ h : String,
        (getCurrentUser (some h) st now).isOk = true ↔
          h ≠ "" ∧
          ∃ s, st.sessions.find?
                (fun x => x.token == stripBearer h && decide (now < x.expiresAt)) =
              some s ∧
            (st.users.find? (fun u => u.id == s.userId)).isSome = true) := by
  constructor
  · intro tk htk
    simp only [getCurrentUser]
    rw [if_neg (bearer_append_ne_empty tk), if_neg htk,
      stripBearer_bearer_append]
  · intro h
    by_cases hh : h = ""
    · subst hh
      constructor
      · intro hok
        have hval : getCurrentUser (some "") st now = Except.error 401 := rfl
        rw [hval] at hok
        exact Bool.noConfusion hok
      · rintro ⟨hne, -⟩
        exact absurd rfl hne
    · have hgc : getCurrentUser (some h) st now =
          match st.sessions.find?
              (fun x => x.token == stripBearer h && decide (now < x.expiresAt)) with
          | none => Except.error 401
          | some session =>
              match st.users.find? (fun u => u.id == session.userId) with
              | none => Except.error 401
              | some u => Except.ok u := by
        simp only [getCurrentUser]
        rw [if_neg hh]
      cases hs : st.sessions.find?
          (fun x => x.token == stripBearer h && decide (now < x.expiresAt)) with
      | none =>
          have hval : getCurrentUser (some h) st now = Except.error 401 := by
            rw [hgc, hs]
          constructor
          · intro hok
            rw [hval] at hok
            exact Bool.noConfusion hok
          · rintro ⟨-, s, hss, -⟩
            exact Option.noConfusion hss
      | some s0 =>
          cases hu : st.users.find? (fun u => u.id == s0.userId) with
          | none =>
              have hval : getCurrentUser (some h) st now = Except.error 401 := by
                rw [hgc, hs]
                show (match st.users.find? (fun u => u.id == s0.userId) with
                    | none => Except.error 401
                    | some u => Except.ok u) = Except.error 401
                rw [hu]
              constructor
              · intro hok
                rw [hval] at hok
                exact Bool.noConfusion hok
              · rintro ⟨-, s, hss, hsome⟩
                injection hss with hss
                subst hss
                rw [hu] at hsome
                exact Bool.noConfusion hsome
          | some u0 =>
              have hval : getCurrentUser (some h) st now = Except.ok u0 := by
                rw [hgc, hs]
                show (match st.users.find? (fun u => u.id == s0.userId) with
                    | none => Except.error 401
                    | some u => Except.ok u) = Except.ok u0
                rw [hu]
              constructor
              · intro _
                refine ⟨hh, s0, rfl, ?_⟩
                rw [hu]
                rfl
              · intro _
                rw [hval]
                rfl

/-- C10 witness: on a store with a valid session and its user, the header
`"Bearer tok"` authenticates exactly like the bare header `"tok"`. -/
theorem auth_token_extraction_witness :
    getCurrentUser (some ("Bearer " ++ "tok")) authDB 0 =
      getCurrentUser (some "tok") authDB 0 :=
  (auth_token_extraction authDB 0).1 "tok" (by decide)

end Matrimonial
